import Mathlib

/-!
Shallow embedding of the device-capability benchmarking and
plan-recommendation module of the onboarding repository
(`geekbenchAI.ts` and `deviceDetection.ts`).

Numbers are modelled exactly: JS numbers that hold integer scores become
`ℕ`/`ℤ`, fractional quantities (GB amounts, durations, weighted averages)
become `ℚ`, and `Math.round` becomes `jsRound` (floor of `x + 1/2`, which
is the ECMAScript rounding rule). Nondeterministic platform signals
(`navigator.*`, WebGL contexts, probe timings, fetch outcomes) are passed
in as explicit environment records, and JS exceptions become explicit
outcome constructors, so every function of the module is total here.
-/

namespace OnBoarding

/-- ECMAScript `Math.round`: floor of `x + 1/2` (ties go toward `+∞`). -/
def jsRound (q : ℚ) : ℤ := ⌊q + 1/2⌋

/-- JS `v || d` for an optional numeric signal holding a `ℕ`:
`undefined` and `0` are falsy and yield the default. -/
def jsOrNat (v : Option ℕ) (d : ℕ) : ℕ :=
  match v with
  | some n => if n = 0 then d else n
  | none => d

/-- JS `v || d` for an optional numeric signal holding a `ℚ`. -/
def jsOrRat (v : Option ℚ) (d : ℚ) : ℚ :=
  match v with
  | some q => if q = 0 then d else q
  | none => d

/-- The device classes of `geekbenchAI.ts`. -/
inductive DeviceClass
  | flagship
  | highEnd
  | midRange
  | entryLevel
deriving DecidableEq, Repr

/-- The subscription plans. -/
inductive Plan
  | free
  | compute
  | premium
deriving DecidableEq, Repr

/-- The weighted AI score `int8*0.5 + fp16*0.3 + fp32*0.2` used both for
`overallScore` in `runAIBenchmark` and inside `classifyAIDevice`. -/
def weightedScore (int8Score fp16Score fp32Score : ℕ) : ℚ :=
  int8Score * (1/2) + fp16Score * (3/10) + fp32Score * (1/5)

/-- `classifyAIDevice` from `geekbenchAI.ts`: first-match thresholds over
the weighted score, with an INT8 floor for the top two tiers. The source
comparisons are strict (`>`). -/
def classifyAIDevice (int8Score fp16Score fp32Score : ℕ) : DeviceClass :=
  if 4000 < weightedScore int8Score fp16Score fp32Score ∧ 5000 < int8Score then
    DeviceClass.flagship
  else if 2500 < weightedScore int8Score fp16Score fp32Score ∧ 3000 < int8Score then
    DeviceClass.highEnd
  else if 1500 < weightedScore int8Score fp16Score fp32Score then
    DeviceClass.midRange
  else
    DeviceClass.entryLevel

/-- `deviceInfo` of a benchmark result. -/
structure DeviceInfo where
  processor : String
  cores : ℕ
  ramGB : ℚ
  gpu : String
  npu : Option String
deriving DecidableEq, Repr

/-- `GeekbenchResult` of `geekbenchAI.ts` (the legacy interface extending
`GeekbenchAIResult`). -/
structure GeekbenchResult where
  int8Score : ℕ
  fp16Score : ℕ
  fp32Score : ℕ
  overallScore : ℤ
  singleCoreScore : ℕ
  multiCoreScore : ℤ
  aiScore : ℤ
  deviceClass : DeviceClass
  benchmarkDate : String
  deviceInfo : DeviceInfo
deriving DecidableEq, Repr

/-- Environment of one `runAIBenchmark` call: the platform signals and the
outcomes of the (timing-dependent, hence nondeterministic) probes. -/
structure BenchEnv where
  hardwareConcurrency : Option ℕ
  deviceMemory : Option ℚ
  gpu : String
  npu : Option String
  int8Score : ℕ
  fp16Score : ℕ
  fp32Score : ℕ
  singleCoreScore : ℕ
  multiCoreScore : ℤ
  processor : String
  benchmarkDate : String
deriving DecidableEq, Repr

/-- `runAIBenchmark` from `geekbenchAI.ts`: assembles the result record
from the probe scores, computing `overallScore` as the rounded weighted
average, duplicating it into `aiScore`, and classifying the device from
the three quantization scores. -/
def runAIBenchmark (env : BenchEnv) : GeekbenchResult :=
  let cores := jsOrNat env.hardwareConcurrency 2
  let ramGB := jsOrRat env.deviceMemory 4
  let overallScore := jsRound (weightedScore env.int8Score env.fp16Score env.fp32Score)
  let deviceClass := classifyAIDevice env.int8Score env.fp16Score env.fp32Score
  { int8Score := env.int8Score
    fp16Score := env.fp16Score
    fp32Score := env.fp32Score
    overallScore := overallScore
    singleCoreScore := env.singleCoreScore
    multiCoreScore := env.multiCoreScore
    aiScore := overallScore
    deviceClass := deviceClass
    benchmarkDate := env.benchmarkDate
    deviceInfo :=
      { processor := env.processor
        cores := cores
        ramGB := ramGB
        gpu := env.gpu
        npu := env.npu } }

/-- Outcome of the worker fan-out in `testMultiCore`: either all workers
completed after a wall-clock `duration` (ms), or creating/running them
threw. -/
inductive WorkerOutcome
  | success (duration : ℚ)
  | failure
deriving DecidableEq, Repr

/-- `testMultiCore` from `geekbenchAI.ts`: on success scores
`round((cores*10000)/(duration/100))`, on any failure falls back to
`round(singleCoreScore * cores * 0.8)` using the single-core probe. -/
def testMultiCore (cores : ℕ) (outcome : WorkerOutcome) (singleCoreScore : ℕ) : ℤ :=
  match outcome with
  | WorkerOutcome.success duration => jsRound ((cores * 10000) / (duration / 100))
  | WorkerOutcome.failure => jsRound (singleCoreScore * cores * (8/10))

/-- JS `Number.prototype.toFixed(1)` for a nonnegative rational: nearest
multiple of `1/10`, ties rounded up, printed with one decimal digit. -/
def toFixed1 (q : ℚ) : String :=
  let n := (⌊q * 10 + 1/2⌋).toNat
  toString (n / 10) ++ "." ++ toString (n % 10)

/-- `formatScore` from `geekbenchAI.ts`. -/
def formatScore (score : ℕ) : String :=
  if 10000 ≤ score then toFixed1 ((score : ℚ) / 1000) ++ "K"
  else toString score

/-- A `{plan, message}` recommendation. -/
structure Recommendation where
  plan : Plan
  message : String
deriving DecidableEq, Repr

/-- `getRecommendation` from `geekbenchAI.ts`: a pure map from
`deviceClass` to a plan, with INT8/FP16 thresholds only feeding the
message wording. JS truthiness of `result.int8Score && ...` is modelled
by the `≠ 0` conjunct. -/
def getRecommendation (result : GeekbenchResult) : Recommendation :=
  let hasGoodINT8 := result.int8Score ≠ 0 ∧ 3000 < result.int8Score
  let hasFP16Support := result.fp16Score ≠ 0 ∧ 2000 < result.fp16Score
  let i8 := formatScore result.int8Score
  let f16 := formatScore result.fp16Score
  match result.deviceClass with
  | DeviceClass.flagship =>
      { plan := Plan.free
        message := "Excellent AI acceleration! INT8: " ++ i8 ++ ", FP16: " ++ f16 ++
          ". Your device can run quantized models locally with strong inference performance." }
  | DeviceClass.highEnd =>
      { plan := Plan.compute
        message := "Great quantization support! INT8: " ++ i8 ++ ". " ++
          (if hasGoodINT8 then "Local INT8 models recommended" else "Hybrid mode with cloud FP16") ++
          " for optimal performance." }
  | DeviceClass.midRange =>
      { plan := Plan.compute
        message := "Decent AI capabilities (INT8: " ++ i8 ++ "). " ++
          (if hasFP16Support then "FP16 models via cloud" else "INT8 quantized models") ++
          " recommended." }
  | DeviceClass.entryLevel =>
      { plan := Plan.premium
        message := "Limited quantization support (INT8: " ++ i8 ++
          "). Cloud-based FP16/FP32 inference recommended for best accuracy." }

/-- Outcome of the `fetch` in `saveBenchmarkResult`. -/
structure FetchResponse where
  ok : Bool
  status : ℕ
deriving DecidableEq, Repr

/-- A fetch either rejects (network error) or resolves with a response. -/
inductive FetchOutcome
  | networkError
  | response (r : FetchResponse)
deriving DecidableEq, Repr

/-- The browser `localStorage`, as an association list. -/
abbrev LocalStorage := List (String × String)

/-- `localStorage.setItem`. -/
def setItem (store : LocalStorage) (key value : String) : LocalStorage :=
  (key, value) :: List.filter (fun kv => kv.1 != key) store

/-- `localStorage.getItem`. -/
def getItem (store : LocalStorage) (key : String) : Option String :=
  List.lookup key store

/-- `saveBenchmarkResult` from `geekbenchAI.ts`: POSTs the serialized
result; a network error, or a non-ok response (which the source turns
into a thrown `Error`), is caught by the surrounding `try`/`catch`, which
writes the serialized result to `localStorage` under the fixed key
`wolf_benchmark`. The function is total: no exception escapes. -/
def saveBenchmarkResult (outcome : FetchOutcome) (serialized : String)
    (store : LocalStorage) : LocalStorage :=
  let attempt : Except String Unit :=
    match outcome with
    | FetchOutcome.networkError => Except.error "NetworkError"
    | FetchOutcome.response r =>
        if r.ok then Except.ok () else Except.error "Failed to save benchmark"
  match attempt with
  | Except.ok _ => store
  | Except.error _ => setItem store "wolf_benchmark" serialized

/-- `t` occurs as a contiguous run of `s`: the substring test behind the
JS `includes`/regex-literal checks of `deviceDetection.ts`. -/
def listIsInfix (t : List Char) : List Char → Bool
  | [] => t.isEmpty
  | c :: rest => List.isPrefixOf t (c :: rest) || listIsInfix t rest

/-- Substring test on strings: `s` contains `t`. -/
def includesStr (s t : String) : Bool :=
  listIsInfix t.data s.data

/-- JS `toLowerCase`, character by character (the patterns matched here
are all ASCII). -/
def lowerStr (s : String) : String :=
  String.mk (s.data.map Char.toLower)

/-- The device types of `deviceDetection.ts`. -/
inductive DeviceType
  | mobile
  | desktop
  | tablet
deriving DecidableEq, Repr

/-- `DeviceSpecs` from `deviceDetection.ts`. -/
structure DeviceSpecs where
  type : DeviceType
  os : String
  cpuCores : ℕ
  ramGB : ℚ
  gpuAvailable : Bool
  storageGB : ℚ
  isFlagship : Bool
  recommendedPlan : Plan
deriving DecidableEq, Repr

/-- A WebGL context as far as `checkGPUAvailability` inspects it: the
unmasked renderer string when the debug-info extension is present. -/
structure GLContext where
  debugRenderer : Option String
deriving DecidableEq, Repr

/-- The object returned by `navigator.storage.estimate()`, fields in
bytes; JS leaves either field possibly `undefined`. -/
structure StorageEstimate where
  quota : Option ℚ
  usage : Option ℚ
deriving DecidableEq, Repr

/-- Environment of one `detectDeviceCapabilities` call: every platform
signal it reads, with `Option`/`Except` marking absent or throwing APIs. -/
structure DetectEnv where
  hardwareConcurrency : Option ℕ
  deviceMemory : Option ℚ
  userAgent : String
  platform : String
  /-- `document.createElement('canvas')` / `getContext` threw. -/
  getContextThrows : Bool
  /-- `none`: `getContext` returned `null` (no WebGL). -/
  webglContext : Option GLContext
  /-- `none`: no `navigator.storage.estimate` API; `error`: it threw. -/
  storageAPI : Option (Except Unit StorageEstimate)
deriving Repr

/-- The desktop-platform test of `estimateRAM`: the lowercased
`navigator.platform` contains `win`, `mac` or `linux`. -/
def desktopPlatform (platform : String) : Bool :=
  includesStr platform "win" || includesStr platform "mac" || includesStr platform "linux"

/-- `estimateRAM` from `deviceDetection.ts`: a RAM heuristic from the
core count and the platform string. -/
def estimateRAM (env : DetectEnv) : ℚ :=
  let cpuCores := jsOrNat env.hardwareConcurrency 2
  let platform := lowerStr env.platform
  if desktopPlatform platform then
    if 8 ≤ cpuCores then 16 else if 4 ≤ cpuCores then 8 else 4
  else if 8 ≤ cpuCores then 8
  else if 6 ≤ cpuCores then 6
  else if 4 ≤ cpuCores then 4
  else 2

/-- `checkGPUAvailability` from `deviceDetection.ts`: `false` when context
creation throws or yields no context; with a debug renderer string, a
software renderer (`swiftshader`) counts as no GPU. -/
def checkGPUAvailability (env : DetectEnv) : Bool :=
  if env.getContextThrows then false
  else
    match env.webglContext with
    | none => false
    | some gl =>
        match gl.debugRenderer with
        | some renderer => !(includesStr (lowerStr renderer) "swiftshader")
        | none => true

/-- `estimateStorage` from `deviceDetection.ts`: free GB from the quota
API when present, `64` when the API is absent or throws. -/
def estimateStorage (env : DetectEnv) : ℚ :=
  match env.storageAPI with
  | some (Except.ok e) =>
      let quotaGB := jsOrRat e.quota 0 / (1024 * 1024 * 1024)
      let usageGB := jsOrRat e.usage 0 / (1024 * 1024 * 1024)
      max (quotaGB - usageGB) 0
  | some (Except.error _) => 64
  | none => 64

/-- Helper for the `android(?!.*mobi)` alternative of the tablet regex:
some position of the text starts with `android` and the remainder after
that match holds no `mobi` (the negative lookahead). -/
def androidNoMobiAux (t m : List Char) : List Char → Bool
  | [] => false
  | c :: rest =>
      (List.isPrefixOf t (c :: rest) && !(listIsInfix m (List.drop t.length (c :: rest)))) ||
      androidNoMobiAux t m rest

/-- The `android(?!.*mobi)` alternative of the tablet regex. -/
def androidNotMobi (ua : String) : Bool :=
  androidNoMobiAux "android".data "mobi".data ua.data

/-- `getDeviceType` from `deviceDetection.ts`: tablet patterns are tried
before mobile patterns on the lowercased user agent. -/
def getDeviceType (userAgent : String) : DeviceType :=
  let ua := lowerStr userAgent
  if includesStr ua "tablet" || includesStr ua "ipad" || includesStr ua "playbook" ||
      includesStr ua "silk" || androidNotMobi ua then
    DeviceType.tablet
  else if includesStr ua "mobile" || includesStr ua "iphone" || includesStr ua "ipod" ||
      includesStr ua "blackberry" || includesStr ua "opera mini" ||
      includesStr ua "iemobile" || includesStr ua "wpdesktop" then
    DeviceType.mobile
  else
    DeviceType.desktop

/-- `getOS` from `deviceDetection.ts`: ordered case-insensitive
user-agent checks. -/
def getOS (userAgent : String) : String :=
  let ua := lowerStr userAgent
  if includesStr ua "windows" then "Windows"
  else if includesStr ua "macintosh" || includesStr ua "mac os x" then "macOS"
  else if includesStr ua "linux" then "Linux"
  else if includesStr ua "android" then "Android"
  else if includesStr ua "iphone" || includesStr ua "ipad" || includesStr ua "ipod" then "iOS"
  else "Unknown"

/-- `detectDeviceCapabilities` from `deviceDetection.ts`: reads every
signal with its fallback, computes `isFlagship` and the recommended
plan. Total: every failure mode of the platform is a value of
`DetectEnv`, never an exception. -/
def detectDeviceCapabilities (env : DetectEnv) : DeviceSpecs :=
  let cpuCores := jsOrNat env.hardwareConcurrency 2
  let deviceMemoryGB := jsOrRat env.deviceMemory (estimateRAM env)
  let hasGPU := checkGPUAvailability env
  let storage := estimateStorage env
  let deviceType := getDeviceType env.userAgent
  let os := getOS env.userAgent
  let isFlagship :=
    decide (4 ≤ cpuCores) && decide ((6 : ℚ) ≤ deviceMemoryGB) &&
      decide ((64 : ℚ) ≤ storage) && hasGPU
  let recommendedPlan :=
    if isFlagship then Plan.free
    else if 4 ≤ cpuCores ∧ (4 : ℚ) ≤ deviceMemoryGB then Plan.compute
    else Plan.premium
  { type := deviceType
    os := os
    cpuCores := cpuCores
    ramGB := deviceMemoryGB
    gpuAvailable := hasGPU
    storageGB := storage
    isFlagship := isFlagship
    recommendedPlan := recommendedPlan }

/-- Rank of a device class in the order
entry-level < mid-range < high-end < flagship. -/
def classRank : DeviceClass → ℕ
  | DeviceClass.entryLevel => 0
  | DeviceClass.midRange => 1
  | DeviceClass.highEnd => 2
  | DeviceClass.flagship => 3

/-- C1: for every benchmark run, the `overallScore` field of the result of
`runAIBenchmark` equals `round(int8Score*0.5 + fp16Score*0.3 + fp32Score*0.2)`
computed over the three probe scores of the same result, for all probe
score values. -/
theorem overallScore_is_rounded_weighted_average (env : BenchEnv) :
    (runAIBenchmark env).overallScore =
      jsRound (weightedScore (runAIBenchmark env).int8Score
        (runAIBenchmark env).fp16Score (runAIBenchmark env).fp32Score) := rfl

/-- C10: every `GeekbenchResult` returned by `runAIBenchmark` has
`aiScore = overallScore`, for every possible probe outcome. -/
theorem aiScore_duplicates_overallScore (env : BenchEnv) :
    (runAIBenchmark env).aiScore = (runAIBenchmark env).overallScore := rfl

/-- C7: for every core count `n ≥ 1`, a worker failure makes the
multi-core probe return `round(singleCoreScore * n * 0.8)` instead of
raising, and a successful run of wall-clock length `duration` returns
`round((n * 10000) / (duration / 100))`. -/
theorem testMultiCore_score_and_fallback (cores : ℕ) (hcores : 1 ≤ cores)
    (singleCoreScore : ℕ) (duration : ℚ) :
    testMultiCore cores WorkerOutcome.failure singleCoreScore =
      jsRound (singleCoreScore * cores * (8/10)) ∧
    testMultiCore cores (WorkerOutcome.success duration) singleCoreScore =
      jsRound ((cores * 10000) / (duration / 100)) :=
  ⟨rfl, rfl⟩

/-- Witness for C7: with 4 cores, a failing worker pool and single-core
score 1000 give `round(1000*4*0.8) = 3200`; a 200 ms run gives
`round(40000/2) = 20000`. -/
theorem testMultiCore_score_and_fallback_witness :
    testMultiCore 4 WorkerOutcome.failure 1000 = 3200 ∧
    testMultiCore 4 (WorkerOutcome.success 200) 1000 = 20000 := by
  have h := testMultiCore_score_and_fallback 4 (by norm_num) 1000 200
  refine ⟨h.1.trans ?_, h.2.trans ?_⟩
  · unfold jsRound
    norm_num
  · unfold jsRound
    norm_num

/-- C6: if the POST of `saveBenchmarkResult` rejects with a network error
or resolves with a non-ok response, the serialized result is written to
the local fallback store under the fixed key `wolf_benchmark` and the
call returns normally (it is a total function into the store); on an ok
response no fallback write happens. -/
theorem saveBenchmarkResult_fallback_write (outcome : FetchOutcome)
    (serialized : String) (store : LocalStorage) :
    (outcome = FetchOutcome.networkError →
      getItem (saveBenchmarkResult outcome serialized store) "wolf_benchmark" =
        some serialized) ∧
    (∀ r : FetchResponse, outcome = FetchOutcome.response r → r.ok = false →
      getItem (saveBenchmarkResult outcome serialized store) "wolf_benchmark" =
        some serialized) ∧
    (∀ r : FetchResponse, outcome = FetchOutcome.response r → r.ok = true →
      saveBenchmarkResult outcome serialized store = store) := by
  refine ⟨?_, ?_, ?_⟩
  · rintro rfl
    simp [saveBenchmarkResult, setItem, getItem, List.lookup]
  · rintro r rfl hok
    simp [saveBenchmarkResult, hok, setItem, getItem, List.lookup]
  · rintro r rfl hok
    simp [saveBenchmarkResult, hok]

/-- Witness for C6: an HTTP 500 response makes `saveBenchmarkResult`
store the serialized result under `wolf_benchmark`. -/
theorem saveBenchmarkResult_fallback_write_witness :
    getItem (saveBenchmarkResult (FetchOutcome.response (FetchResponse.mk false 500))
      "serialized-benchmark-result" []) "wolf_benchmark" =
      some "serialized-benchmark-result" :=
  (saveBenchmarkResult_fallback_write
    (FetchOutcome.response (FetchResponse.mk false 500))
    "serialized-benchmark-result" []).2.1 _ rfl rfl

/-- C9: `formatScore` renders a score at least 10000 as the score divided
by 1000 with one decimal place followed by `K`, and a smaller score as its
plain decimal string; in particular `formatScore 9999 = "9999"`,
`formatScore 10000 = "10.0K"` and `formatScore 25500 = "25.5K"`. -/
theorem formatScore_rendering (score : ℕ) :
    (10000 ≤ score → formatScore score = toFixed1 ((score : ℚ) / 1000) ++ "K") ∧
    (score < 10000 → formatScore score = toString score) ∧
    formatScore 9999 = "9999" ∧
    formatScore 10000 = "10.0K" ∧
    formatScore 25500 = "25.5K" := by
  refine ⟨fun h => ?_, fun h => ?_, ?_, ?_, ?_⟩
  · rw [formatScore, if_pos h]
  · rw [formatScore, if_neg (by omega)]
  · rw [formatScore, if_neg (by omega)]
    rfl
  · rw [formatScore, if_pos (by omega)]
    simp only [toFixed1]
    norm_num
    decide
  · rw [formatScore, if_pos (by omega)]
    simp only [toFixed1]
    norm_num
    decide

/-- Witness for C9: the two branch hypotheses discharged at 10000 and
9999. -/
theorem formatScore_rendering_witness :
    formatScore 10000 = toFixed1 (((10000 : ℕ) : ℚ) / 1000) ++ "K" ∧
    formatScore 9999 = toString (9999 : ℕ) :=
  ⟨(formatScore_rendering 10000).1 (by norm_num),
   (formatScore_rendering 9999).2.1 (by norm_num)⟩

/-- Counterexample for C2: at probe scores `(8000, 0, 0)` the weighted
score is exactly 4000, so the claimed inclusive thresholds
(`weighted ≥ 4000` and `int8 ≥ 5000`) predict `flagship`, but
`classifyAIDevice` uses strict comparisons and returns `high-end`. -/
theorem classify_thresholds_not_inclusive :
    4000 ≤ weightedScore 8000 0 0 ∧ 5000 ≤ (8000 : ℕ) ∧
    classifyAIDevice 8000 0 0 = DeviceClass.highEnd ∧
    DeviceClass.highEnd ≠ DeviceClass.flagship := by
  refine ⟨?_, by norm_num, ?_, by decide⟩
  · unfold weightedScore
    norm_num
  · unfold classifyAIDevice weightedScore
    norm_num

/-- C2 (amended): `deviceClass` is determined by first-match evaluation
of ordered thresholds over `weighted = int8*0.5 + fp16*0.3 + fp32*0.2`,
with every comparison strict: `flagship` when `weighted > 4000` and
`int8 > 5000`; else `high-end` when `weighted > 2500` and `int8 > 3000`;
else `mid-range` when `weighted > 1500`; else `entry-level`. -/
theorem classify_first_match_strict_thresholds (i f p : ℕ) :
    (4000 < weightedScore i f p ∧ 5000 < i →
      classifyAIDevice i f p = DeviceClass.flagship) ∧
    (¬(4000 < weightedScore i f p ∧ 5000 < i) →
      2500 < weightedScore i f p ∧ 3000 < i →
      classifyAIDevice i f p = DeviceClass.highEnd) ∧
    (¬(4000 < weightedScore i f p ∧ 5000 < i) →
      ¬(2500 < weightedScore i f p ∧ 3000 < i) →
      1500 < weightedScore i f p →
      classifyAIDevice i f p = DeviceClass.midRange) ∧
    (¬(4000 < weightedScore i f p ∧ 5000 < i) →
      ¬(2500 < weightedScore i f p ∧ 3000 < i) →
      ¬(1500 < weightedScore i f p) →
      classifyAIDevice i f p = DeviceClass.entryLevel) := by
  unfold classifyAIDevice
  refine ⟨fun h1 => ?_, fun h1 h2 => ?_, fun h1 h2 h3 => ?_, fun h1 h2 h3 => ?_⟩
  · rw [if_pos h1]
  · rw [if_neg h1, if_pos h2]
  · rw [if_neg h1, if_neg h2, if_pos h3]
  · rw [if_neg h1, if_neg h2, if_neg h3]

/-- Witness for C2 (amended): `(6000, 2500, 1000)` has weighted score
3950, missing the flagship cut but passing the high-end one. -/
theorem classify_first_match_strict_thresholds_witness :
    classifyAIDevice 6000 2500 1000 = DeviceClass.highEnd := by
  refine (classify_first_match_strict_thresholds 6000 2500 1000).2.1 ?_ ?_
  · unfold weightedScore
    norm_num
  · unfold weightedScore
    constructor
    · norm_num
    · norm_num

/-- Every class rank is at most 3. -/
theorem classRank_le_three (c : DeviceClass) : classRank c ≤ 3 := by
  cases c <;> simp [classRank]

/-- Rank at least 1 exactly when the weighted score clears the mid-range
threshold. -/
theorem classRank_ge_one_iff (i f p : ℕ) :
    1 ≤ classRank (classifyAIDevice i f p) ↔ 1500 < weightedScore i f p := by
  unfold classifyAIDevice
  split_ifs with h1 h2 h3 <;> simp [classRank]
  · linarith [h1.1]
  · linarith [h2.1]
  · exact h3
  · exact not_lt.mp h3

/-- Rank at least 2 exactly when the high-end condition holds. -/
theorem classRank_ge_two_iff (i f p : ℕ) :
    2 ≤ classRank (classifyAIDevice i f p) ↔
      2500 < weightedScore i f p ∧ 3000 < i := by
  unfold classifyAIDevice
  split_ifs with h1 h2 h3 <;> simp [classRank]
  · exact ⟨by linarith [h1.1], by omega⟩
  · exact h2
  · exact fun hw => not_lt.mp fun hi => h2 ⟨hw, hi⟩
  · exact fun hw => not_lt.mp fun hi => h2 ⟨hw, hi⟩

/-- Rank 3 exactly when the flagship condition holds. -/
theorem classRank_ge_three_iff (i f p : ℕ) :
    3 ≤ classRank (classifyAIDevice i f p) ↔
      4000 < weightedScore i f p ∧ 5000 < i := by
  unfold classifyAIDevice
  split_ifs with h1 h2 h3 <;> simp [classRank]
  · exact h1
  · exact fun hw => not_lt.mp fun hi => h1 ⟨hw, hi⟩
  · exact fun hw => not_lt.mp fun hi => h1 ⟨hw, hi⟩
  · exact fun hw => not_lt.mp fun hi => h1 ⟨hw, hi⟩

/-- C4: the device-class bucket is monotone — a strictly higher weighted
score together with an equal or higher INT8 score never yields a class
ranked lower in entry-level < mid-range < high-end < flagship. -/
theorem deviceClass_bucket_monotone (i₁ f₁ p₁ i₂ f₂ p₂ : ℕ)
    (hw : weightedScore i₁ f₁ p₁ < weightedScore i₂ f₂ p₂) (hi : i₁ ≤ i₂) :
    classRank (classifyAIDevice i₁ f₁ p₁) ≤ classRank (classifyAIDevice i₂ f₂ p₂) := by
  have hb := classRank_le_three (classifyAIDevice i₁ f₁ p₁)
  by_cases h3 : 3 ≤ classRank (classifyAIDevice i₁ f₁ p₁)
  · obtain ⟨hw1, hi1⟩ := (classRank_ge_three_iff i₁ f₁ p₁).mp h3
    have h3' : 3 ≤ classRank (classifyAIDevice i₂ f₂ p₂) :=
      (classRank_ge_three_iff i₂ f₂ p₂).mpr ⟨hw1.trans hw, by omega⟩
    omega
  · by_cases h2 : 2 ≤ classRank (classifyAIDevice i₁ f₁ p₁)
    · obtain ⟨hw1, hi1⟩ := (classRank_ge_two_iff i₁ f₁ p₁).mp h2
      have h2' : 2 ≤ classRank (classifyAIDevice i₂ f₂ p₂) :=
        (classRank_ge_two_iff i₂ f₂ p₂).mpr ⟨hw1.trans hw, by omega⟩
      omega
    · by_cases h1 : 1 ≤ classRank (classifyAIDevice i₁ f₁ p₁)
      · have hw1 := (classRank_ge_one_iff i₁ f₁ p₁).mp h1
        have h1' : 1 ≤ classRank (classifyAIDevice i₂ f₂ p₂) :=
          (classRank_ge_one_iff i₂ f₂ p₂).mpr (hw1.trans hw)
        omega
      · omega

/-- Witness for C4: `(3000, 1000, 1000)` (weighted 2000, mid-range)
against `(6000, 2500, 1000)` (weighted 3950, high-end). -/
theorem deviceClass_bucket_monotone_witness :
    classRank (classifyAIDevice 3000 1000 1000) ≤
      classRank (classifyAIDevice 6000 2500 1000) := by
  refine deviceClass_bucket_monotone 3000 1000 1000 6000 2500 1000 ?_ (by norm_num)
  unfold weightedScore
  norm_num

/-- C3: for every environment, the `DeviceSpecs` returned by
`detectDeviceCapabilities` has `isFlagship` true iff
`cpuCores ≥ 4 ∧ ramGB ≥ 6 ∧ storageGB ≥ 64 ∧ gpuAvailable`, and
`recommendedPlan` is `free` exactly when `isFlagship` holds, else
`compute` when `cpuCores ≥ 4 ∧ ramGB ≥ 4`, else `premium`. -/
theorem detect_isFlagship_and_plan (env : DetectEnv) :
    ((detectDeviceCapabilities env).isFlagship = true ↔
      4 ≤ (detectDeviceCapabilities env).cpuCores ∧
      (6 : ℚ) ≤ (detectDeviceCapabilities env).ramGB ∧
      (64 : ℚ) ≤ (detectDeviceCapabilities env).storageGB ∧
      (detectDeviceCapabilities env).gpuAvailable = true) ∧
    ((detectDeviceCapabilities env).recommendedPlan = Plan.free ↔
      (detectDeviceCapabilities env).isFlagship = true) ∧
    ((detectDeviceCapabilities env).isFlagship = false →
      (4 ≤ (detectDeviceCapabilities env).cpuCores ∧
        (4 : ℚ) ≤ (detectDeviceCapabilities env).ramGB →
        (detectDeviceCapabilities env).recommendedPlan = Plan.compute) ∧
      (¬(4 ≤ (detectDeviceCapabilities env).cpuCores ∧
         (4 : ℚ) ≤ (detectDeviceCapabilities env).ramGB) →
        (detectDeviceCapabilities env).recommendedPlan = Plan.premium)) := by
  simp only [detectDeviceCapabilities, Bool.and_eq_true, decide_eq_true_eq]
  refine ⟨by tauto, ?_, ?_⟩
  · split_ifs with h1 h2 <;> simp_all
  · intro hb
    have hnc : ¬(((4 ≤ jsOrNat env.hardwareConcurrency 2 ∧
        (6 : ℚ) ≤ jsOrRat env.deviceMemory (estimateRAM env)) ∧
        (64 : ℚ) ≤ estimateStorage env) ∧ checkGPUAvailability env = true) := by
      intro hC
      rw [decide_eq_true hC.1.1.1, decide_eq_true hC.1.1.2, decide_eq_true hC.1.2,
        hC.2] at hb
      simp at hb
    refine ⟨fun hcr => ?_, fun hcr => ?_⟩
    · rw [if_neg hnc, if_pos hcr]
    · rw [if_neg hnc, if_neg hcr]

/-- A concrete flagship-grade environment: 8 cores, a 16 GB memory
signal, a hardware WebGL context, and a throwing storage API (so the
64 GB fallback is used). -/
def flagshipEnv : DetectEnv :=
  { hardwareConcurrency := some 8
    deviceMemory := some 16
    userAgent := "Mozilla"
    platform := "Win32"
    getContextThrows := false
    webglContext := some { debugRenderer := none }
    storageAPI := some (Except.error ()) }

/-- Witness for C3: the flagship-grade environment is detected as
flagship and recommended the `free` plan. -/
theorem detect_isFlagship_and_plan_witness :
    (detectDeviceCapabilities flagshipEnv).recommendedPlan = Plan.free :=
  (detect_isFlagship_and_plan flagshipEnv).2.1.mpr (by decide)

/-- C5: `detectDeviceCapabilities` is a total function of the
environment (exceptions and missing APIs are environment values, so it
never raises), and with every navigator-like signal absent or throwing
it falls back to `cpuCores = 2`, `storageGB = 64`,
`gpuAvailable = false`, and `ramGB` from the `estimateRAM` platform
heuristic, whose case split is stated in the last conjunct. -/
theorem detect_absent_signal_fallbacks (env : DetectEnv)
    (hc : env.hardwareConcurrency = none)
    (hm : env.deviceMemory = none)
    (hg : env.getContextThrows = true ∨ env.webglContext = none)
    (hs : env.storageAPI = none ∨ env.storageAPI = some (Except.error ())) :
    (detectDeviceCapabilities env).cpuCores = 2 ∧
    (detectDeviceCapabilities env).storageGB = 64 ∧
    (detectDeviceCapabilities env).gpuAvailable = false ∧
    (detectDeviceCapabilities env).ramGB = estimateRAM env ∧
    (∀ e : DetectEnv,
      estimateRAM e =
        if desktopPlatform (lowerStr e.platform) then
          if 8 ≤ jsOrNat e.hardwareConcurrency 2 then 16
          else if 4 ≤ jsOrNat e.hardwareConcurrency 2 then 8
          else 4
        else if 8 ≤ jsOrNat e.hardwareConcurrency 2 then 8
        else if 6 ≤ jsOrNat e.hardwareConcurrency 2 then 6
        else if 4 ≤ jsOrNat e.hardwareConcurrency 2 then 4
        else 2) := by
  refine ⟨?_, ?_, ?_, ?_, fun e => rfl⟩
  · simp [detectDeviceCapabilities, jsOrNat, hc]
  · rcases hs with h | h <;> simp [detectDeviceCapabilities, estimateStorage, h]
  · rcases hg with h | h <;> simp [detectDeviceCapabilities, checkGPUAvailability, h]
  · simp [detectDeviceCapabilities, jsOrRat, hm]

/-- The fully degenerate environment: every navigator-like signal is
absent and the storage API is missing. -/
def emptyDetectEnv : DetectEnv :=
  { hardwareConcurrency := none
    deviceMemory := none
    userAgent := ""
    platform := ""
    getContextThrows := false
    webglContext := none
    storageAPI := none }

/-- Witness for C5: the degenerate environment gets every documented
fallback. -/
theorem detect_absent_signal_fallbacks_witness :
    (detectDeviceCapabilities emptyDetectEnv).cpuCores = 2 ∧
    (detectDeviceCapabilities emptyDetectEnv).storageGB = 64 ∧
    (detectDeviceCapabilities emptyDetectEnv).gpuAvailable = false ∧
    (detectDeviceCapabilities emptyDetectEnv).ramGB = estimateRAM emptyDetectEnv ∧
    (∀ e : DetectEnv,
      estimateRAM e =
        if desktopPlatform (lowerStr e.platform) then
          if 8 ≤ jsOrNat e.hardwareConcurrency 2 then 16
          else if 4 ≤ jsOrNat e.hardwareConcurrency 2 then 8
          else 4
        else if 8 ≤ jsOrNat e.hardwareConcurrency 2 then 8
        else if 6 ≤ jsOrNat e.hardwareConcurrency 2 then 6
        else if 4 ≤ jsOrNat e.hardwareConcurrency 2 then 4
        else 2) :=
  detect_absent_signal_fallbacks emptyDetectEnv rfl rfl (Or.inr rfl) (Or.inl rfl)

/-- A sample high-end benchmark result. -/
def sampleResultA : GeekbenchResult :=
  { int8Score := 6000
    fp16Score := 2500
    fp32Score := 1000
    overallScore := 3950
    singleCoreScore := 1200
    multiCoreScore := 4800
    aiScore := 3950
    deviceClass := DeviceClass.highEnd
    benchmarkDate := "2025-01-01T00:00:00.000Z"
    deviceInfo :=
      { processor := "Apple Silicon"
        cores := 8
        ramGB := 16
        gpu := "WebGL GPU"
        npu := some "Apple Neural Engine" } }

/-- A second high-end result with every non-class field different. -/
def sampleResultB : GeekbenchResult :=
  { int8Score := 3500
    fp16Score := 2900
    fp32Score := 2000
    overallScore := 3020
    singleCoreScore := 900
    multiCoreScore := 3000
    aiScore := 3020
    deviceClass := DeviceClass.highEnd
    benchmarkDate := "2024-06-15T12:30:00.000Z"
    deviceInfo :=
      { processor := "Snapdragon"
        cores := 4
        ramGB := 8
        gpu := "Adreno"
        npu := none } }

/-- C8: the plan of `getRecommendation` is a function of `deviceClass`
alone — two results with equal `deviceClass` get the same plan whatever
their other fields — and the mapping is flagship → free,
high-end → compute, mid-range → compute, entry-level → premium. The
embedding is a pure function, so the call has no side effects. -/
theorem getRecommendation_plan_from_class (r₁ r₂ : GeekbenchResult)
    (h : r₁.deviceClass = r₂.deviceClass) :
    (getRecommendation r₁).plan = (getRecommendation r₂).plan ∧
    (r₁.deviceClass = DeviceClass.flagship →
      (getRecommendation r₁).plan = Plan.free) ∧
    (r₁.deviceClass = DeviceClass.highEnd →
      (getRecommendation r₁).plan = Plan.compute) ∧
    (r₁.deviceClass = DeviceClass.midRange →
      (getRecommendation r₁).plan = Plan.compute) ∧
    (r₁.deviceClass = DeviceClass.entryLevel →
      (getRecommendation r₁).plan = Plan.premium) := by
  have key : ∀ r : GeekbenchResult, (getRecommendation r).plan =
      (match r.deviceClass with
        | DeviceClass.flagship => Plan.free
        | DeviceClass.highEnd => Plan.compute
        | DeviceClass.midRange => Plan.compute
        | DeviceClass.entryLevel => Plan.premium) := by
    intro r
    cases hr : r.deviceClass <;> simp [getRecommendation, hr]
  refine ⟨?_, fun h1 => ?_, fun h1 => ?_, fun h1 => ?_, fun h1 => ?_⟩
  · rw [key, key, h]
  · rw [key, h1]
  · rw [key, h1]
  · rw [key, h1]
  · rw [key, h1]

/-- Witness for C8: two high-end results differing in every other field
get the same plan, `compute`. -/
theorem getRecommendation_plan_from_class_witness :
    (getRecommendation sampleResultA).plan = (getRecommendation sampleResultB).plan ∧
    (getRecommendation sampleResultA).plan = Plan.compute :=
  ⟨(getRecommendation_plan_from_class sampleResultA sampleResultB rfl).1,
   (getRecommendation_plan_from_class sampleResultA sampleResultB rfl).2.2.1 rfl⟩

end OnBoarding
